import Mathlib

/-!
# Verification of the connect-evm adapter (ffmcgee725/connect-monorepo)

Shallow embedding of `packages/connect-evm/src/connect.ts` (class
`MetamaskConnectEVM`) and of the EIP-1193 provider wrapper
(`EIP1193Provider`).  The repository carries the provider in two variants:
the in-memory one (plain field accessors) and a storage-backed draft whose
getters return Promises.  The specification scopes the storage-backed
variant out of the reproducible contract ("any storage-backed variant is
external-SDK behavior, not part of this core"), and `connect.ts` only
type-checks against the in-memory accessors, so the provider state here
follows the in-memory variant; the `selectedChainId` setter is the same
guard in both variants.

State mutation is modelled by explicit state passing; every observable
side effect (event emission, caller callback, SDK call, raw wallet
message, listener bookkeeping) is recorded in an effect trace, in program
order.  A thrown JS error is an explicit `Option String` / `Except`.
-/

/-! ## Hex helpers (from `@metamask/utils`)

`numberToHex(n)` returns `"0x" + n.toString(16)` (lowercase digits);
`hexToNumber` parses the digits after the `0x` prefix. `Number(s)` on a
`0x`-prefixed string parses it as hex. -/

/-- Lowercase hexadecimal digits of `n` (JS `n.toString(16)`). -/
def natToHexDigits (n : Nat) : String :=
  String.mk (Nat.toDigits 16 n)

/-- Function `numberToHex` from `@metamask/utils`: `"0x" + n.toString(16)`. -/
def numberToHex (n : Nat) : String :=
  "0x" ++ natToHexDigits n

/-- Value of a single hexadecimal digit character (0 for non-digits;
callers only apply it to valid digits). -/
def hexDigitVal (c : Char) : Nat :=
  if '0' ≤ c ∧ c ≤ '9' then c.toNat - 48
  else if 'a' ≤ c ∧ c ≤ 'f' then c.toNat - 87
  else if 'A' ≤ c ∧ c ≤ 'F' then c.toNat - 55
  else 0

/-- Value of a list of hexadecimal digit characters, most significant first. -/
def hexDigitsVal (cs : List Char) : Nat :=
  cs.foldl (fun acc c => 16 * acc + hexDigitVal c) 0

/-- Function `hexToNumber` from `@metamask/utils`: numeric value of a `0x`-prefixed
hexadecimal string. -/
def hexToNumber (s : String) : Nat :=
  hexDigitsVal (s.toList.drop 2)

/-- Value of a list of decimal digit characters, most significant first. -/
def decDigitsVal (cs : List Char) : Nat :=
  cs.foldl (fun acc c => 10 * acc + (c.toNat - 48)) 0

/-- JS `Number(s)` restricted to the shapes the adapter feeds it: a
`0x`-prefixed string is parsed as hexadecimal, otherwise as decimal. -/
def jsNumberOfString (s : String) : Nat :=
  match s.toList with
  | '0' :: 'x' :: _ => hexToNumber s
  | '0' :: 'X' :: _ => hexToNumber s
  | cs => decDigitsVal cs

/-! ## Provider session state and the `selectedChainId` setter -/

/-- The session state held by `EIP1193Provider`: the permitted accounts
(`#accounts`, initially `[]`) and the selected chain id (`#selectedChainId`,
a canonical hex string or `undefined`). -/
structure ProviderState where
  accounts : List String
  selectedChainId : Option String
  deriving Repr, DecidableEq

/-- The values a caller can assign to the `selectedChainId` setter
(`Hex | number | undefined` in the source). -/
inductive SetChainInput where
  /-- a JS number -/
  | num (n : Nat)
  /-- a JS string (the `Hex` branch of the union) -/
  | hexStr (s : String)
  /-- the value `undefined` -/
  | undef
  deriving Repr, DecidableEq

/-- The `selectedChainId` setter of `EIP1193Provider`:
`const hexChainId = chainId && typeof chainId === 'number' ? numberToHex(chainId) : chainId;`
then `if (!hexChainId) return;` and otherwise store `hexChainId`.
`0`, `""` and `undefined` are falsy, so they leave the stored value alone;
a nonzero number is stored in canonical hex form; a nonempty string is
stored as given. -/
def setSelectedChainId (cur : Option String) : SetChainInput → Option String
  | .num n => if n = 0 then cur else some (numberToHex n)
  | .hexStr s => if s = "" then cur else some s
  | .undef => cur

/-! ## The provider `request` dispatch -/

/-- Modelled from the spec: `constants.ts` (the `INTERCEPTABLE_METHODS`
list) is not among the provided sources; the list follows §6 of the spec,
"Intercepted method names (must be recognized verbatim)". -/
def INTERCEPTABLE_METHODS : List String :=
  ["wallet_requestPermissions", "eth_requestAccounts",
   "wallet_revokePermissions", "wallet_switchEthereumChain",
   "wallet_addEthereumChain", "eth_accounts", "eth_coinbase"]

/-- An EIP-1193 request: a method name and an opaque params payload. -/
structure ProviderRequest where
  method : String
  params : List String
  deriving Repr, DecidableEq

/-- Outcome of `EIP1193Provider.request`, distinguishing the three exits of
the source: return the interceptor's result, throw the unselected-chain
error, or forward to `core.invokeMethod` with a scope. -/
inductive RequestOutcome (β : Type) where
  /-- exit `return this.#requestInterceptor?.(request)` -/
  | intercepted (result : β)
  /-- exit `throw new Error('No chain ID selected')` -/
  | unselectedChainError
  /-- exit `core.invokeMethod` with a scope and the request -/
  | invoked (scope : String) (method : String) (params : List String)
  deriving Repr, DecidableEq

/-- Method `EIP1193Provider.request`: interceptable methods go to the interceptor;
otherwise a falsy `#selectedChainId` throws; otherwise the request is
forwarded with scope `eip155:<decimal chain id>` and untouched method and
params. -/
def EIP1193Provider.request {β : Type} (interceptor : ProviderRequest → β)
    (selectedChainId : Option String) (req : ProviderRequest) :
    RequestOutcome β :=
  if INTERCEPTABLE_METHODS.contains req.method then
    .intercepted (interceptor req)
  else
    match selectedChainId with
    | none => .unselectedChainError
    | some hex =>
        if hex = "" then .unselectedChainError
        else .invoked ("eip155:" ++ toString (hexToNumber hex))
          req.method req.params

/-! ## Manager state, effects and the internal change handlers -/

/-- Structure `AddEthereumChainParameter`: the chain configuration payload (the
fields the adapter never inspects are kept abstractly). -/
structure AddEthereumChainParameter where
  chainId : Option String := none
  chainName : Option String := none
  rpcUrls : List String := []
  deriving Repr, DecidableEq

/-- Event / callback payloads as they appear in the effect trace. -/
inductive Payload where
  /-- a hex chain id string -/
  | hex (s : String)
  /-- an account list -/
  | accounts (l : List String)
  /-- the `{ chainId }` object passed to the `connect` event -/
  | connectInfo (chainId : String)
  /-- the `[{ chainId }]` params of `wallet_switchEthereumChain` -/
  | chainParam (chainId : String)
  /-- the `[config]` params of `wallet_addEthereumChain` -/
  | chainConfig (c : AddEthereumChainParameter)
  /-- no payload (`disconnect` event, `eth_accounts` probe params) -/
  | empty
  deriving Repr, DecidableEq

/-- One observable side effect of the manager, recorded in program order. -/
inductive Effect where
  /-- assignment to `provider.accounts` -/
  | writeAccounts (accounts : List String)
  /-- assignment to `provider.selectedChainId` (the raw assigned value) -/
  | writeChain (v : SetChainInput)
  /-- call `provider.emit(name, payload)` -/
  | emitEvt (name : String) (p : Payload)
  /-- invocation point of the optional caller-supplied handler
  `eventHandlers?.name?.(payload)` -/
  | callbackEvt (name : String) (p : Payload)
  /-- call `core.connect(caipChainIds, caipAccountIds)` -/
  | sdkConnect (scopes : List String) (accountIds : List String)
  /-- call `core.disconnect()` -/
  | sdkDisconnect
  /-- call `sendEip1193Message` on the transport -/
  | sendEip1193 (method : String) (p : Payload)
  /-- registration call `core.transport.onNotification(...)` in `connect()` -/
  | addTransportListener
  /-- call `window.addEventListener('message', ...)` -/
  | addWindowListener
  /-- call `window.removeEventListener('message', ...)` for the main handler -/
  | removeWindowListener
  /-- registration of the one-shot `recoverSession` listener -/
  | addRecoveryListener
  /-- self-removal of the one-shot `recoverSession` listener -/
  | removeRecoveryListener
  /-- call `core.off('wallet_sessionChanged', ...)` -/
  | coreSessionOff
  deriving Repr, DecidableEq

/-- The state owned by `MetamaskConnectEVM` together with its provider,
plus listener bookkeeping.  `sessionScopes` is abstracted to the list of
permitted eth chain ids (in hex) that
`getPermittedEthChainIds(this.#sessionScopes)` would return; the
extraction itself lives in the external `@metamask/chain-agnostic-permission`
package. -/
structure ManagerState where
  provider : ProviderState
  /-- permitted eth chain ids derived from `#sessionScopes` -/
  permittedChainIds : List String
  /-- field `#latestChainConfiguration` -/
  latestChainConfiguration : Option AddEthereumChainParameter
  /-- whether `#metamaskProviderHandler` is registered on `window` -/
  windowListenerInstalled : Bool
  /-- whether the one-shot `recoverSession` listener is registered -/
  recoveryListenerInstalled : Bool
  /-- number of callbacks registered through `core.transport.onNotification`
  by `connect()`; nothing in the source ever unregisters them -/
  transportListeners : Nat
  deriving Repr, DecidableEq

/-- The argument of `#onChainChanged` / `#onConnect` (`Hex | number`). -/
inductive ChainArg where
  /-- a JS number -/
  | num (n : Nat)
  /-- a hex string (the `Hex` branch; `isHex` holds for it) -/
  | hex (s : String)
  deriving Repr, DecidableEq

/-- Expression `isHex(chainId) ? chainId : numberToHex(chainId)` on a `Hex | number`
argument. -/
def ChainArg.toHex : ChainArg → String
  | .num n => numberToHex n
  | .hex s => s

/-- View of `ChainArg` as the value assigned to the `selectedChainId` setter. -/
def ChainArg.toSetInput : ChainArg → SetChainInput
  | .num n => .num n
  | .hex s => .hexStr s

/-- Handler `#onChainChanged`: converts the argument to hex, assigns the **raw**
argument to the provider's `selectedChainId` setter, invokes the optional
`chainChanged` caller handler, then emits `chainChanged` on the provider
— in that source order. -/
def onChainChanged (st : ManagerState) (chainId : ChainArg) :
    ManagerState × List Effect :=
  let hexChainId := chainId.toHex
  let st' := { st with provider :=
    { st.provider with selectedChainId :=
        setSelectedChainId st.provider.selectedChainId chainId.toSetInput } }
  (st', [.writeChain chainId.toSetInput,
         .callbackEvt "chainChanged" (.hex hexChainId),
         .emitEvt "chainChanged" (.hex hexChainId)])

/-- Handler `#onAccountsChanged`: stores the accounts on the provider, emits
`accountsChanged`, then invokes the optional caller handler. -/
def onAccountsChanged (st : ManagerState) (accounts : List String) :
    ManagerState × List Effect :=
  let st' := { st with provider := { st.provider with accounts := accounts } }
  (st', [.writeAccounts accounts,
         .emitEvt "accountsChanged" (.accounts accounts),
         .callbackEvt "accountsChanged" (.accounts accounts)])

/-- Handler `#onConnect`: emits `connect` with `{chainId}` in hex, invokes the
optional caller handler, then runs `#onChainChanged` on the argument. -/
def onConnect (st : ManagerState) (chainId : ChainArg) :
    ManagerState × List Effect :=
  let data := chainId.toHex
  let r := onChainChanged st chainId
  (r.1, [.emitEvt "connect" (.connectInfo data),
         .callbackEvt "connect" (.connectInfo data)] ++ r.2)

/-- Handler `#onDisconnect`: emits `disconnect`, invokes the optional caller
handler, then runs `#onAccountsChanged` with the empty list. -/
def onDisconnect (st : ManagerState) : ManagerState × List Effect :=
  let r := onAccountsChanged st []
  (r.1, [.emitEvt "disconnect" .empty,
         .callbackEvt "disconnect" .empty] ++ r.2)

/-! ## Manager operations -/

/-- Method `switchChain`: normalize the argument to
hex; return untouched if it strictly equals the selected chain id; switch
locally if the chain is among the permitted scopes; otherwise stash the
configuration as `#latestChainConfiguration` and send a
`wallet_switchEthereumChain` message to the wallet. -/
def switchChain (st : ManagerState) (chainId : ChainArg)
    (chainConfiguration : Option AddEthereumChainParameter) :
    ManagerState × List Effect :=
  let hexChainId := chainId.toHex
  if st.provider.selectedChainId = some hexChainId then (st, [])
  else if st.permittedChainIds.contains hexChainId then
    onChainChanged st (.hex hexChainId)
  else
    let st' := { st with latestChainConfiguration := chainConfiguration }
    (st', [.sendEip1193 "wallet_switchEthereumChain" (.chainParam hexChainId)])

/-- Method `#addEthereumChain(chainConfiguration?)`: use the argument or fall back
to `#latestChainConfiguration`; with no configuration at all, throw
`'No chain configuration found.'`; otherwise send a
`wallet_addEthereumChain` message.  `#latestChainConfiguration` is left
untouched in every branch. -/
def addEthereumChain (st : ManagerState)
    (chainConfiguration : Option AddEthereumChainParameter) :
    Except String (ManagerState × List Effect) :=
  let config := match chainConfiguration with
    | some c => some c
    | none => st.latestChainConfiguration
  match config with
  | none => .error "No chain configuration found."
  | some config =>
      .ok (st, [.sendEip1193 "wallet_addEthereumChain" (.chainConfig config)])

/-- Method `disconnect()`: first `core.disconnect()`, the `#onDisconnect` sequence, then
`#clearConnectionState` (which assigns `[]` to the accounts and `undefined`
to the `selectedChainId` setter), then removes the window listener and
calls `core.off('wallet_sessionChanged', ...)`.  Note that `core.off` is
passed `this.#sessionChangedHandler` while `core.on` registered
`this.#sessionChangedHandler.bind(this)` — a different function object —
and that the transport notification callbacks registered by `connect()`
are never unregistered, so `transportListeners` is unchanged. -/
def disconnect (st : ManagerState) : ManagerState × List Effect :=
  let r := onDisconnect st
  let st2 := { r.1 with provider :=
    { accounts := []
      selectedChainId :=
        setSelectedChainId r.1.provider.selectedChainId .undef } }
  let st3 := { st2 with windowListenerInstalled := false }
  (st3, [Effect.sdkDisconnect] ++ r.2
        ++ [.writeAccounts [], .writeChain .undef,
            .removeWindowListener, .coreSessionOff])

/-- Result of `connect()`: the `{accounts, chainId}` object it returns. -/
structure ConnectResult where
  accounts : List String
  chainId : Nat
  deriving Repr, DecidableEq

/-- Method `connect`: builds the CAIP scope/account ids, calls
`core.connect` (whose resolved value `sdkResult` is never used), assigns
`numberToHex(chainId)` to the provider's chain setter, registers a
transport notification listener, runs the `#onConnect` sequence, and
returns the provider's current account list together with the decimal
reading of the selected chain id. -/
def MetamaskConnectEVM.connect (st : ManagerState) (chainId : Nat)
    (account : Option String) (sdkResult : Nat) :
    ManagerState × List Effect × ConnectResult :=
  let caipChainId : List String :=
    if chainId ≠ 0 then ["eip155:" ++ toString chainId] else []
  let caipAccountId : List String :=
    match account with
    | some acct =>
        if chainId ≠ 0 then
          ["eip155:" ++ toString chainId ++ ":" ++ acct]
        else []
    | none => []
  -- `await this.#core.connect(...)`: the resolved value is discarded.
  let _ := sdkResult
  let newChain :=
    setSelectedChainId st.provider.selectedChainId
      (.hexStr (numberToHex chainId))
  let st1 := { st with provider :=
    { st.provider with selectedChainId := newChain } }
  let st2 := { st1 with transportListeners := st1.transportListeners + 1 }
  -- `this.#onConnect({ chainId: this.#provider.selectedChainId })`:
  -- the getter is `some (numberToHex chainId)` at this point.
  let r := onConnect st2 (.hex ((st2.provider.selectedChainId).getD ""))
  (r.1,
   [Effect.sdkConnect caipChainId caipAccountId,
    .writeChain (.hexStr (numberToHex chainId)),
    .addTransportListener] ++ r.2,
   { accounts := r.1.provider.accounts
     chainId := hexToNumber ((r.1.provider.selectedChainId).getD "") })

/-! ## Inbound window messages -/

/-- The `event.data.data.data` payload of a wrapped wallet message, with
the fields the adapter inspects. -/
structure WalletMessageData where
  /-- field `data.method` -/
  method : Option String := none
  /-- field `data.params` when the method is `metamask_accountsChanged` -/
  paramsAccounts : List String := []
  /-- field `data.params.chainId` when the method is `metamask_chainChanged` -/
  paramsChainId : Option String := none
  /-- field `data.error.code` -/
  errorCode : Option Int := none
  /-- field `data.result` (an array or absent) -/
  result : Option (List String) := none
  deriving Repr, DecidableEq

/-- A window `message` event as the adapter sees it. -/
structure WalletMessageEvent where
  /-- test `event.data.data.name === 'metamask-provider'` -/
  isProviderName : Bool
  /-- test `event.origin === location.origin` -/
  sameOrigin : Bool
  data : WalletMessageData
  deriving Repr, DecidableEq

/-- Predicate `#isMetamaskProviderEvent`. -/
def isMetamaskProviderEvent (ev : WalletMessageEvent) : Bool :=
  ev.isProviderName && ev.sameOrigin

/-- Result of running a window handler: the state after all mutations that
happened before any throw, the effects so far, and the thrown error
message if the handler threw. -/
structure HandlerResult where
  state : ManagerState
  effects : List Effect
  thrown : Option String
  deriving Repr, DecidableEq

/-- Handler `#metamaskProviderHandler`: on a metamask-provider event, the three
independent checks in source order — `metamask_accountsChanged`,
`metamask_chainChanged` (whose `params.chainId` goes through JS
`Number(...)`), and `error.code === 4902`, which triggers
`#addEthereumChain()` with no argument. -/
def metamaskProviderHandler (st : ManagerState) (ev : WalletMessageEvent) :
    HandlerResult :=
  if isMetamaskProviderEvent ev then
    let r1 :=
      if ev.data.method = some "metamask_accountsChanged" then
        onAccountsChanged st ev.data.paramsAccounts
      else (st, [])
    let r2 :=
      if ev.data.method = some "metamask_chainChanged" then
        onChainChanged r1.1
          (.num (jsNumberOfString ((ev.data.paramsChainId).getD "")))
      else (r1.1, [])
    if ev.data.errorCode = some 4902 then
      match addEthereumChain r2.1 none with
      | .error msg =>
          { state := r2.1, effects := r1.2 ++ r2.2, thrown := some msg }
      | .ok (st3, e3) =>
          { state := st3, effects := r1.2 ++ r2.2 ++ e3, thrown := none }
    else { state := r2.1, effects := r1.2 ++ r2.2, thrown := none }
  else { state := st, effects := [], thrown := none }

/-! ## Session recovery -/

/-- Function `isHexAddress` from `@metamask/utils`: a `0x`-prefixed string
of exactly 40 hexadecimal digits. -/
def isHexAddress (s : String) : Bool :=
  match s.toList with
  | '0' :: 'x' :: rest =>
      rest.length == 40
        && rest.all (fun c =>
            ('0' ≤ c && c ≤ '9') || ('a' ≤ c && c ≤ 'f')
              || ('A' ≤ c && c ≤ 'F'))
  | _ => false

/-- An entry of the initialization-time notification queue (the adapter
only reads its `method` field). -/
structure QueueNotificationEntry where
  method : String
  deriving Repr, DecidableEq

/-- Listener `recoverSession` installed by `#attemptSessionRecovery`: on a
metamask-provider event whose `result` is an array with every entry a
syntactically valid address, fire `#onAccountsChanged(result)` and remove
itself; otherwise do nothing. -/
def recoverSession (st : ManagerState) (ev : WalletMessageEvent) :
    ManagerState × List Effect :=
  if isMetamaskProviderEvent ev then
    match ev.data.result with
    | some result =>
        if result.all isHexAddress then
          let r := onAccountsChanged st result
          ({ r.1 with recoveryListenerInstalled := false },
           r.2 ++ [.removeRecoveryListener])
        else (st, [])
    | none => (st, [])
  else (st, [])

/-- Method `#attemptSessionRecovery(events)`: if some queued notification
has method `wallet_sessionChanged`, install the one-shot `recoverSession`
window listener and send an `eth_accounts` probe; otherwise do nothing. -/
def attemptSessionRecovery (st : ManagerState)
    (events : List QueueNotificationEntry) : ManagerState × List Effect :=
  if events.any (fun n => n.method = "wallet_sessionChanged") then
    ({ st with recoveryListenerInstalled := true },
     [.addRecoveryListener, .sendEip1193 "eth_accounts" .empty])
  else (st, [])

/-- Delivery of one window `message` event to the installed listeners, in
registration order: the main `#metamaskProviderHandler` (when installed),
then the one-shot `recoverSession` listener (when installed).  An
exception thrown inside a DOM listener does not stop dispatch to the
remaining listeners. -/
def deliverWindowMessage (st : ManagerState) (ev : WalletMessageEvent) :
    ManagerState × List Effect :=
  let r1 :=
    if st.windowListenerInstalled then
      ((metamaskProviderHandler st ev).state,
       (metamaskProviderHandler st ev).effects)
    else (st, [])
  let r2 :=
    if r1.1.recoveryListenerInstalled then recoverSession r1.1 ev
    else (r1.1, [])
  (r2.1, r1.2 ++ r2.2)

/-- Delivery of a stream of window `message` events, left to right. -/
def runWindowMessages (st : ManagerState) :
    List WalletMessageEvent → ManagerState × List Effect
  | [] => (st, [])
  | ev :: rest =>
      let r := deliverWindowMessage st ev
      let rr := runWindowMessages r.1 rest
      (rr.1, r.2 ++ rr.2)

/-- Payloads of the `accountsChanged` events emitted in a trace. -/
def accountsChangedEmissions (tr : List Effect) : List (List String) :=
  tr.filterMap (fun e =>
    match e with
    | .emitEvt "accountsChanged" (.accounts l) => some l
    | _ => none)

/-- The `result` payload of a metamask-provider event when it is an array
whose entries are all syntactically valid addresses. -/
def eventValidResult (ev : WalletMessageEvent) : Option (List String) :=
  if isMetamaskProviderEvent ev then
    match ev.data.result with
    | some r => if r.all isHexAddress then some r else none
    | none => none
  else none

/-- The first all-valid `result` array carried by a stream of events. -/
def firstValidResult : List WalletMessageEvent → Option (List String)
  | [] => none
  | ev :: rest =>
      match eventValidResult ev with
      | some r => some r
      | none => firstValidResult rest

/-! ## Example states used in concrete evaluations -/

/-- A connected state (as after `connect({chainId: 1})` and one
accounts-changed notification). -/
def connectedState : ManagerState :=
  { provider :=
      { accounts := ["0x1111111111111111111111111111111111111111"]
        selectedChainId := some "0x1" }
    permittedChainIds := []
    latestChainConfiguration := none
    windowListenerInstalled := true
    recoveryListenerInstalled := false
    transportListeners := 1 }

/-- A sample chain configuration (Polygon). -/
def sampleConfig : AddEthereumChainParameter :=
  { chainId := some "0x89"
    chainName := some "Polygon"
    rpcUrls := ["https://polygon-rpc.com"] }

/-- A connected state holding a pending chain configuration, as after a
`switchChain` attempt that reached the wallet. -/
def pendingConfigState : ManagerState :=
  { provider :=
      { accounts := ["0x1111111111111111111111111111111111111111"]
        selectedChainId := some "0x1" }
    permittedChainIds := []
    latestChainConfiguration := some sampleConfig
    windowListenerInstalled := true
    recoveryListenerInstalled := false
    transportListeners := 1 }

/-! ## Helper lemmas -/

/-- Running `#onAccountsChanged` never touches the pending chain
configuration. -/
theorem onAccountsChanged_latest (st : ManagerState) (a : List String) :
    (onAccountsChanged st a).1.latestChainConfiguration
      = st.latestChainConfiguration := rfl

/-- Running `#onChainChanged` never touches the pending chain
configuration. -/
theorem onChainChanged_latest (st : ManagerState) (c : ChainArg) :
    (onChainChanged st c).1.latestChainConfiguration
      = st.latestChainConfiguration := rfl

/-! ## C1 — disconnect must clear state and listeners -/

/-- C1 (code_bug evaluation): starting from a connected state with
selected chain `"0x1"`, `disconnect()` does empty the accounts, but the
selected chain id survives — `#clearConnectionState` assigns `undefined`
to a setter that ignores falsy values, contradicting its own doc comment
"Clears the internal connection state: accounts and chainId" — and the
transport notification listener registered by `connect()` is still
installed, so a later `metamask_accountsChanged` notification on that
channel still mutates state. -/
theorem disconnect_retains_selectedChainId :
    ((disconnect connectedState).1.provider.accounts = [])
    ∧ ((disconnect connectedState).1.provider.selectedChainId = some "0x1")
    ∧ ((disconnect connectedState).1.transportListeners = 1) :=
  ⟨rfl, rfl, rfl⟩

/-! ## C2 — request dispatch -/

/-- C2: for every request, (i) an interceptable method returns the
interceptor's result and never reaches the underlying-SDK scope
invocation; (ii) otherwise, with no chain selected the request fails with
the unselected-chain error; (iii) otherwise it invokes the SDK with scope
exactly `"eip155:<decimal chainId>"` and the method and params unchanged. -/
theorem request_dispatch (β : Type) (interceptor : ProviderRequest → β)
    (sel : Option String) (req : ProviderRequest) :
    (INTERCEPTABLE_METHODS.contains req.method = true →
      EIP1193Provider.request interceptor sel req
        = .intercepted (interceptor req)
      ∧ ∀ sc me pa,
          EIP1193Provider.request interceptor sel req ≠ .invoked sc me pa)
    ∧ (INTERCEPTABLE_METHODS.contains req.method = false →
        (sel = none →
          EIP1193Provider.request interceptor sel req
            = .unselectedChainError)
        ∧ ∀ hex, sel = some hex → hex ≠ "" →
            EIP1193Provider.request interceptor sel req
              = .invoked ("eip155:" ++ toString (hexToNumber hex))
                  req.method req.params) := by
  constructor
  · intro h
    have h' : req.method ∈ INTERCEPTABLE_METHODS := by simpa using h
    constructor
    · simp [EIP1193Provider.request, h']
    · intro sc me pa
      simp [EIP1193Provider.request, h']
  · intro h
    have h' : req.method ∉ INTERCEPTABLE_METHODS := by simpa using h
    constructor
    · intro hsel
      simp [EIP1193Provider.request, h', hsel]
    · intro hex hsel hne
      simp [EIP1193Provider.request, h', hsel, hne]

/-- C2 witness: concrete instances — `eth_accounts` is intercepted (and
not forwarded), `eth_getBalance` with no chain selected fails, and
`eth_getBalance` with chain `"0x1"` selected is forwarded with scope
`"eip155:1"` and untouched method and params. -/
theorem request_dispatch_witness :
    EIP1193Provider.request (fun _ => (0 : Nat)) none ⟨"eth_accounts", []⟩
      = .intercepted 0
    ∧ EIP1193Provider.request (fun _ => (0 : Nat)) none
        ⟨"eth_getBalance", ["0xa", "latest"]⟩ = .unselectedChainError
    ∧ EIP1193Provider.request (fun _ => (0 : Nat)) (some "0x1")
        ⟨"eth_getBalance", ["0xa", "latest"]⟩
      = .invoked "eip155:1" "eth_getBalance" ["0xa", "latest"] := by
  refine ⟨?_, ?_, ?_⟩
  · exact ((request_dispatch Nat (fun _ => 0) none
      ⟨"eth_accounts", []⟩).1 (by decide)).1
  · exact ((request_dispatch Nat (fun _ => 0) none
      ⟨"eth_getBalance", ["0xa", "latest"]⟩).2 (by decide)).1 rfl
  · have h := ((request_dispatch Nat (fun _ => 0) (some "0x1")
      ⟨"eth_getBalance", ["0xa", "latest"]⟩).2 (by decide)).2
      "0x1" rfl (by decide)
    exact h.trans (by decide)

/-! ## C7 — the `selectedChainId` setter -/

/-- C7: assigning `undefined` or an empty (falsy) value — the empty string
or the number `0` — to `selectedChainId` leaves the stored value intact,
and assigning a nonzero numeric chain id stores its canonical hex form. -/
theorem setSelectedChainId_spec (v : Option String) (n : Nat) :
    setSelectedChainId v .undef = v
    ∧ setSelectedChainId v (.hexStr "") = v
    ∧ setSelectedChainId v (.num 0) = v
    ∧ (n ≠ 0 → setSelectedChainId v (.num n) = some (numberToHex n)) := by
  refine ⟨rfl, rfl, rfl, fun h => ?_⟩
  simp [setSelectedChainId, h]

/-- C7 witness: with `"0x1"` stored, the three empty assignments keep
`"0x1"`, and assigning the number `137` stores `"0x89"`. -/
theorem setSelectedChainId_spec_witness :
    setSelectedChainId (some "0x1") .undef = some "0x1"
    ∧ setSelectedChainId (some "0x1") (.hexStr "") = some "0x1"
    ∧ setSelectedChainId (some "0x1") (.num 0) = some "0x1"
    ∧ setSelectedChainId (some "0x1") (.num 137) = some "0x89" := by
  have h := setSelectedChainId_spec (some "0x1") 137
  refine ⟨h.1, h.2.1, h.2.2.1, ?_⟩
  exact (h.2.2.2 (by decide)).trans (by decide)

/-! ## C3 — effect order of the internal change handlers -/

/-- Boolean test: the first `emitEvt name` in the trace comes strictly
before the first `callbackEvt name`. -/
def emitsBeforeCallback (name : String) (tr : List Effect) : Bool :=
  match tr.findIdx? (fun e =>
          match e with
          | .emitEvt n _ => n == name
          | _ => false),
        tr.findIdx? (fun e =>
          match e with
          | .callbackEvt n _ => n == name
          | _ => false) with
  | some i, some j => i < j
  | _, _ => false

/-- C3 counterexample: `#onChainChanged(1)` produces, in order, the state
write, then the caller-supplied `chainChanged` callback, then the provider
`chainChanged` emission — so the claimed fixed order "state mutation →
provider event → caller callback" fails: the provider event does not
precede the caller callback. -/
theorem onChainChanged_callback_precedes_emit :
    (onChainChanged connectedState (.num 1)).2
      = [.writeChain (.num 1),
         .callbackEvt "chainChanged" (.hex "0x1"),
         .emitEvt "chainChanged" (.hex "0x1")]
    ∧ emitsBeforeCallback "chainChanged"
        ((onChainChanged connectedState (.num 1)).2) = false := by
  refine ⟨by decide, by decide⟩

/-- C3 amended: the actual fixed orders are — `#onAccountsChanged`: state
write, provider event, caller callback; `#onChainChanged`: state write,
caller callback, provider event; `#onConnect` and `#onDisconnect`:
provider event, caller callback, and then the state-mutating nested
handler (`#onChainChanged` resp. `#onAccountsChanged([])`). -/
theorem handlers_effect_order (st : ManagerState) (accts : List String)
    (n : Nat) :
    (onAccountsChanged st accts).2
      = [.writeAccounts accts,
         .emitEvt "accountsChanged" (.accounts accts),
         .callbackEvt "accountsChanged" (.accounts accts)]
    ∧ (onChainChanged st (.num n)).2
      = [.writeChain (.num n),
         .callbackEvt "chainChanged" (.hex (numberToHex n)),
         .emitEvt "chainChanged" (.hex (numberToHex n))]
    ∧ (onConnect st (.num n)).2
      = [.emitEvt "connect" (.connectInfo (numberToHex n)),
         .callbackEvt "connect" (.connectInfo (numberToHex n)),
         .writeChain (.num n),
         .callbackEvt "chainChanged" (.hex (numberToHex n)),
         .emitEvt "chainChanged" (.hex (numberToHex n))]
    ∧ (onDisconnect st).2
      = [.emitEvt "disconnect" .empty,
         .callbackEvt "disconnect" .empty,
         .writeAccounts [],
         .emitEvt "accountsChanged" (.accounts []),
         .callbackEvt "accountsChanged" (.accounts [])] :=
  ⟨rfl, rfl, rfl, rfl⟩

/-! ## C4 — switchChain with the chain already selected -/

/-- C4: if the requested chain id (normalized to hex) equals the currently
selected chain id, `switchChain` performs no SDK call and leaves the whole
state — selected chain, accounts, pending chain configuration — unchanged. -/
theorem switchChain_selected_noop (st : ManagerState) (c : ChainArg)
    (cfg : Option AddEthereumChainParameter)
    (h : st.provider.selectedChainId = some c.toHex) :
    switchChain st c cfg = (st, []) := by
  simp [switchChain, h]

/-- C4 witness: switching to chain `1` while `"0x1"` is selected is a
complete no-op. -/
theorem switchChain_selected_noop_witness :
    switchChain connectedState (.num 1) none = (connectedState, []) :=
  switchChain_selected_noop connectedState (.num 1) none (by decide)

/-! ## C5 — lifecycle of the pending chain configuration -/

/-- C5 counterexample: from a state whose pending configuration is
`sampleConfig`, the add-chain flow succeeds, sends
`wallet_addEthereumChain` with exactly that configuration — and the
pending configuration is still there afterwards: nothing in the source
ever clears `#latestChainConfiguration`. -/
theorem addEthereumChain_retains_configuration :
    addEthereumChain pendingConfigState none
      = .ok (pendingConfigState,
             [.sendEip1193 "wallet_addEthereumChain"
                (.chainConfig sampleConfig)])
    ∧ pendingConfigState.latestChainConfiguration = some sampleConfig :=
  ⟨rfl, rfl⟩

/-- C5 amended: the pending chain configuration is overwritten (with the
supplied configuration, possibly absent) on every switch attempt that
reaches the wallet, is retained unchanged by the add-chain flow (never
cleared), and no code path stores it anywhere else. -/
theorem latestChainConfiguration_lifecycle (st : ManagerState)
    (c : ChainArg) (cfg : Option AddEthereumChainParameter)
    (h1 : st.provider.selectedChainId ≠ some c.toHex)
    (h2 : st.permittedChainIds.contains c.toHex = false) :
    (switchChain st c cfg).1.latestChainConfiguration = cfg
    ∧ ∀ st' cfg' r, addEthereumChain st' cfg' = .ok r →
        r.1.latestChainConfiguration = st'.latestChainConfiguration := by
  constructor
  · have h2' : c.toHex ∉ st.permittedChainIds := by simpa using h2
    simp [switchChain, h1, h2']
  · intro st' cfg' r hr
    cases cfg' with
    | some cc =>
        simp [addEthereumChain] at hr
        rw [← hr]
    | none =>
        cases hlat : st'.latestChainConfiguration with
        | none => simp [addEthereumChain, hlat] at hr
        | some cc =>
            simp [addEthereumChain, hlat] at hr
            rw [← hr]
            exact hlat

/-- C5 witness: a fresh `switchChain` to chain `137` stores the supplied
configuration, and a subsequent add-chain flow keeps it. -/
theorem latestChainConfiguration_lifecycle_witness :
    (switchChain connectedState (.num 137) (some sampleConfig)).1.latestChainConfiguration
      = some sampleConfig
    ∧ ∀ st' cfg' r, addEthereumChain st' cfg' = .ok r →
        r.1.latestChainConfiguration = st'.latestChainConfiguration :=
  latestChainConfiguration_lifecycle connectedState (.num 137)
    (some sampleConfig) (by decide) (by decide)

/-! ## C6 — error 4902 triggers the add-chain flow -/

/-- C6: whenever an inbound metamask-provider message carries an error
with code 4902, the handler runs `#addEthereumChain()` on the most
recently supplied chain configuration: with one available it sends a
`wallet_addEthereumChain` request with that configuration (and nothing is
thrown); with none available it throws the missing-chain-configuration
error. -/
theorem handler_4902_adds_chain (st : ManagerState)
    (ev : WalletMessageEvent) (cfg : AddEthereumChainParameter)
    (hEv : isMetamaskProviderEvent ev = true)
    (hErr : ev.data.errorCode = some 4902) :
    (st.latestChainConfiguration = some cfg →
      (metamaskProviderHandler st ev).thrown = none
      ∧ Effect.sendEip1193 "wallet_addEthereumChain" (.chainConfig cfg)
          ∈ (metamaskProviderHandler st ev).effects)
    ∧ (st.latestChainConfiguration = none →
        (metamaskProviderHandler st ev).thrown
          = some "No chain configuration found.") := by
  by_cases hm1 : ev.data.method = some "metamask_accountsChanged"
  all_goals by_cases hm2 : ev.data.method = some "metamask_chainChanged"
  all_goals constructor
  all_goals intro hcfg
  all_goals
    simp [metamaskProviderHandler, hEv, hErr, hm1, hm2, addEthereumChain,
          onAccountsChanged_latest, onChainChanged_latest, hcfg]

/-- C6 witness: with the pending configuration present, a pure-error 4902
message produces the add-chain request; with it absent, the handler throws
the missing-chain-configuration error. -/
theorem handler_4902_adds_chain_witness :
    ((metamaskProviderHandler pendingConfigState
        { isProviderName := true, sameOrigin := true,
          data := { errorCode := some 4902 } }).thrown = none
      ∧ Effect.sendEip1193 "wallet_addEthereumChain"
            (.chainConfig sampleConfig)
          ∈ (metamaskProviderHandler pendingConfigState
              { isProviderName := true, sameOrigin := true,
                data := { errorCode := some 4902 } }).effects)
    ∧ (metamaskProviderHandler connectedState
        { isProviderName := true, sameOrigin := true,
          data := { errorCode := some 4902 } }).thrown
      = some "No chain configuration found." := by
  constructor
  · exact (handler_4902_adds_chain pendingConfigState
      { isProviderName := true, sameOrigin := true,
        data := { errorCode := some 4902 } } sampleConfig
      (by decide) rfl).1 rfl
  · exact (handler_4902_adds_chain connectedState
      { isProviderName := true, sameOrigin := true,
        data := { errorCode := some 4902 } } sampleConfig
      (by decide) rfl).2 rfl

/-! ## C8 — the `metamask_chainChanged` `"0x89"` scenario -/

/-- The wrapped wallet message `metamask_chainChanged` with params
`{chainId: "0x89"}`. -/
def chainChanged89Event : WalletMessageEvent :=
  { isProviderName := true
    sameOrigin := true
    data := { method := some "metamask_chainChanged"
              paramsChainId := some "0x89" } }

/-- C8: from any state, delivering `metamask_chainChanged` with
`{chainId: "0x89"}` makes the selected chain id exactly `"0x89"` and emits
a `chainChanged` event with that exact hex value; the `Number` →
`numberToHex` round trip preserves the canonical hex string. -/
theorem handler_chainChanged_0x89 (st : ManagerState) :
    (metamaskProviderHandler st chainChanged89Event).state.provider.selectedChainId
      = some "0x89"
    ∧ Effect.emitEvt "chainChanged" (.hex "0x89")
        ∈ (metamaskProviderHandler st chainChanged89Event).effects
    ∧ numberToHex (jsNumberOfString "0x89") = "0x89" := by
  have h137 : jsNumberOfString "0x89" = 137 := by decide
  have hhex : numberToHex 137 = "0x89" := by decide
  refine ⟨?_, ?_, by decide⟩
  · simp [metamaskProviderHandler, chainChanged89Event,
          isMetamaskProviderEvent, h137, onChainChanged, ChainArg.toSetInput,
          setSelectedChainId, hhex]
  · simp [metamaskProviderHandler, chainChanged89Event,
          isMetamaskProviderEvent, h137, onChainChanged, ChainArg.toHex,
          hhex]

/-! ## C10 — connect returns the locally cached account list -/

/-- C10: `connect()` returns as its `accounts` field the provider's cached
account list (unchanged by `connect()` itself, hence empty when no
accounts-changed notification has been applied), and its outcome is
entirely independent of the value the underlying SDK `connect` resolved
with. -/
theorem connect_returns_cached_accounts (st : ManagerState)
    (chainId : Nat) (account : Option String) (r1 r2 : Nat) :
    (MetamaskConnectEVM.connect st chainId account r1).2.2.accounts
      = st.provider.accounts
    ∧ MetamaskConnectEVM.connect st chainId account r1
      = MetamaskConnectEVM.connect st chainId account r2 :=
  ⟨rfl, rfl⟩

/-! ## C9 — session recovery fires exactly once -/

/-- A pure result message (no `method`, no error) leaves the main
`#metamaskProviderHandler` inert: no state change, no effects, no throw. -/
theorem metamaskProviderHandler_resultOnly (st : ManagerState)
    (ev : WalletMessageEvent) (hm : ev.data.method = none)
    (he : ev.data.errorCode = none) :
    metamaskProviderHandler st ev
      = { state := st, effects := [], thrown := none } := by
  by_cases hEv : isMetamaskProviderEvent ev
  · simp [metamaskProviderHandler, hEv, hm, he]
  · simp [metamaskProviderHandler, hEv]

/-- Delivering a pure result message with the one-shot listener already
removed changes nothing. -/
theorem deliverWindowMessage_recovered (st : ManagerState)
    (ev : WalletMessageEvent) (hm : ev.data.method = none)
    (he : ev.data.errorCode = none)
    (hrec : st.recoveryListenerInstalled = false) :
    deliverWindowMessage st ev = (st, []) := by
  simp [deliverWindowMessage,
        metamaskProviderHandler_resultOnly st ev hm he, hrec]

/-- A stream of pure result messages with the one-shot listener already
removed produces no effects at all. -/
theorem runWindowMessages_recovered (st : ManagerState)
    (evs : List WalletMessageEvent)
    (hrec : st.recoveryListenerInstalled = false)
    (hstream : ∀ ev ∈ evs,
      ev.data.method = none ∧ ev.data.errorCode = none) :
    runWindowMessages st evs = (st, []) := by
  induction evs with
  | nil => rfl
  | cons ev rest ih =>
      have h1 := hstream ev (List.mem_cons_self ev rest)
      have hrest : ∀ e ∈ rest, e.data.method = none ∧ e.data.errorCode = none :=
        fun e he => hstream e (List.mem_cons_of_mem ev he)
      have hd := deliverWindowMessage_recovered st ev h1.1 h1.2 hrec
      simp [runWindowMessages, hd, ih hrest]

/-- One-shot listener, firing case: an all-valid result array triggers
`#onAccountsChanged` and self-removal. -/
theorem recoverSession_valid (st : ManagerState) (ev : WalletMessageEvent)
    (res : List String) (h : eventValidResult ev = some res) :
    recoverSession st ev
      = ({ (onAccountsChanged st res).1 with recoveryListenerInstalled := false },
         (onAccountsChanged st res).2 ++ [.removeRecoveryListener]) := by
  by_cases hEv : isMetamaskProviderEvent ev
  · cases hres : ev.data.result with
    | none => simp [eventValidResult, hEv, hres] at h
    | some r =>
        by_cases hall : r.all isHexAddress
        · have : r = res := by simpa [eventValidResult, hEv, hres, hall] using h
          subst this
          simp [recoverSession, hEv, hres, hall]
        · simp [eventValidResult, hEv, hres, hall] at h
  · simp [eventValidResult, hEv] at h

/-- One-shot listener, inert case: no valid result array, no reaction. -/
theorem recoverSession_invalid (st : ManagerState) (ev : WalletMessageEvent)
    (h : eventValidResult ev = none) :
    recoverSession st ev = (st, []) := by
  by_cases hEv : isMetamaskProviderEvent ev
  · cases hres : ev.data.result with
    | none => simp [recoverSession, hEv, hres]
    | some r =>
        by_cases hall : r.all isHexAddress
        · simp [eventValidResult, hEv, hres, hall] at h
        · simp [recoverSession, hEv, hres, hall]
  · simp [recoverSession, hEv]

/-- Over a stream of pure result messages, the installed one-shot listener
emits `accountsChanged` exactly for the first all-valid result array. -/
theorem runWindowMessages_emissions (evs : List WalletMessageEvent)
    (st : ManagerState)
    (hrec : st.recoveryListenerInstalled = true)
    (hstream : ∀ ev ∈ evs,
      ev.data.method = none ∧ ev.data.errorCode = none) :
    accountsChangedEmissions (runWindowMessages st evs).2
      = (firstValidResult evs).toList := by
  induction evs generalizing st with
  | nil => rfl
  | cons ev rest ih =>
      have h1 := hstream ev (List.mem_cons_self ev rest)
      have hrest : ∀ e ∈ rest, e.data.method = none ∧ e.data.errorCode = none :=
        fun e he => hstream e (List.mem_cons_of_mem ev he)
      have hmain := metamaskProviderHandler_resultOnly st ev h1.1 h1.2
      cases heval : eventValidResult ev with
      | some res =>
          have hfire := recoverSession_valid st ev res heval
          have hsilent := runWindowMessages_recovered
            ({ (onAccountsChanged st res).1 with
                recoveryListenerInstalled := false }) rest rfl hrest
          have hdeliver : deliverWindowMessage st ev
              = ({ (onAccountsChanged st res).1 with
                    recoveryListenerInstalled := false },
                 (onAccountsChanged st res).2 ++ [.removeRecoveryListener]) := by
            simp [deliverWindowMessage, hmain, hrec, hfire]
          have hrun : runWindowMessages st (ev :: rest)
              = ({ (onAccountsChanged st res).1 with
                    recoveryListenerInstalled := false },
                 ((onAccountsChanged st res).2 ++ [.removeRecoveryListener])
                   ++ []) := by
            simp [runWindowMessages, hdeliver, hsilent]
          rw [hrun]
          simp [firstValidResult, heval, accountsChangedEmissions,
                onAccountsChanged]
      | none =>
          have hskip := recoverSession_invalid st ev heval
          simp [runWindowMessages, deliverWindowMessage, hmain, hrec,
                hskip, firstValidResult, heval, ih st hrec hrest]

/-- C9: when the initialization-time notification queue contains a
`wallet_sessionChanged` record, `#attemptSessionRecovery` sends the
`eth_accounts` probe and installs the one-shot listener; and over any
subsequent stream of result-carrying provider messages, `accountsChanged`
is emitted exactly for the first result array whose entries are all
syntactically valid addresses — once if one exists, never otherwise, and
never for a result with an invalid entry. -/
theorem sessionRecovery_probe_and_once (st : ManagerState)
    (queue : List QueueNotificationEntry) (evs : List WalletMessageEvent)
    (hq : queue.any (fun n => n.method = "wallet_sessionChanged") = true)
    (hstream : ∀ ev ∈ evs,
      ev.data.method = none ∧ ev.data.errorCode = none) :
    ((attemptSessionRecovery st queue).2).contains
        (.sendEip1193 "eth_accounts" .empty) = true
    ∧ (attemptSessionRecovery st queue).1.recoveryListenerInstalled = true
    ∧ accountsChangedEmissions
        (runWindowMessages (attemptSessionRecovery st queue).1 evs).2
      = (firstValidResult evs).toList := by
  have hq' : (attemptSessionRecovery st queue)
      = ({ st with recoveryListenerInstalled := true },
         [.addRecoveryListener, .sendEip1193 "eth_accounts" .empty]) := by
    unfold attemptSessionRecovery
    rw [if_pos hq]
  rw [hq']
  refine ⟨rfl, rfl, ?_⟩
  exact runWindowMessages_emissions evs
    ({ st with recoveryListenerInstalled := true }) rfl hstream

/-- Concrete stream for the C9 witness: an invalid result, then two valid
ones. -/
def recoveryStream : List WalletMessageEvent :=
  [{ isProviderName := true, sameOrigin := true,
     data := { result := some ["0xabc"] } },
   { isProviderName := true, sameOrigin := true,
     data := { result := some ["0xaaaaaaaaaaaaaaaaaaaaaaaaaaaaaaaaaaaaaaaa",
                               "0xbbbbbbbbbbbbbbbbbbbbbbbbbbbbbbbbbbbbbbbb"] } },
   { isProviderName := true, sameOrigin := true,
     data := { result := some ["0xcccccccccccccccccccccccccccccccccccccccc"] } }]

/-- A freshly constructed manager state. -/
def freshState : ManagerState :=
  { provider := { accounts := [], selectedChainId := none }
    permittedChainIds := []
    latestChainConfiguration := none
    windowListenerInstalled := true
    recoveryListenerInstalled := false
    transportListeners := 0 }

/-- C9 witness: with a queued `wallet_sessionChanged` record, the probe is
sent, the listener is installed, and over a stream with one invalid and
two valid results, `accountsChanged` fires exactly once, with the first
all-valid array. -/
theorem sessionRecovery_probe_and_once_witness :
    ((attemptSessionRecovery freshState [{ method := "wallet_sessionChanged" }]).2).contains
        (.sendEip1193 "eth_accounts" .empty) = true
    ∧ (attemptSessionRecovery freshState
        [{ method := "wallet_sessionChanged" }]).1.recoveryListenerInstalled
      = true
    ∧ accountsChangedEmissions
        (runWindowMessages
          (attemptSessionRecovery freshState
            [{ method := "wallet_sessionChanged" }]).1 recoveryStream).2
      = [["0xaaaaaaaaaaaaaaaaaaaaaaaaaaaaaaaaaaaaaaaa",
          "0xbbbbbbbbbbbbbbbbbbbbbbbbbbbbbbbbbbbbbbbb"]] := by
  have h := sessionRecovery_probe_and_once freshState
    [{ method := "wallet_sessionChanged" }] recoveryStream
    (by decide) (by decide)
  exact ⟨h.1, h.2.1, h.2.2.trans (by decide)⟩
